import Mathlib

/-
Verification of the hard core of the `zff1/nextjs-blog` repository:
the response/error normalization layer (`src/app/api/data.ts`), the
file-upload pipeline (`src/app/api/upload/route.ts`), and the client-side
HTTP request wrapper (the axios `Request` class bundled with
`next.config.js`).

JavaScript strings are modeled as lists of characters (`JSString`), so
every string operation the code uses (startsWith, endsWith, includes,
split, toLowerCase, join, substring) is an executable Lean function that
the kernel can evaluate on concrete inputs.  JavaScript's falsy-coalescing
`x || d` on strings and numbers is modeled by `jsOrStr` / `jsOrNat`
(both the absent value and the empty/zero value fall back to `d`).
-/

/-- JavaScript strings, modeled as lists of characters. -/
abbrev JSString := List Char

/-- JS `s.startsWith(p)`. -/
def jsStartsWith (s p : JSString) : Bool :=
  p.isPrefixOf s

/-- JS `s.endsWith(p)`. -/
def jsEndsWith (s p : JSString) : Bool :=
  p.isSuffixOf s

/-- JS `s.includes(sub)`: substring containment. -/
def jsIncludes : JSString → JSString → Bool
  | [], sub => sub.isEmpty
  | c :: rest, sub => sub.isPrefixOf (c :: rest) || jsIncludes rest sub

/-- JS `s.split(sep)` for a one-character separator: splits on every
occurrence, keeping empty segments (`"".split "." = [""]`,
`"a.".split "." = ["a", ""]`). -/
def splitOnChar (sep : Char) : JSString → List JSString
  | [] => [[]]
  | c :: rest =>
    match splitOnChar sep rest with
    | [] => [[c]]
    | h :: t => if c = sep then [] :: h :: t else (c :: h) :: t

/-- JS `s.toLowerCase()` (character-wise lowering). -/
def jsToLower (s : JSString) : JSString :=
  s.map Char.toLower

/-- JS `s || d` for an optional string: `null`/`undefined` and the empty
string both fall back to the default. -/
def jsOrStr (s : Option JSString) (d : JSString) : JSString :=
  match s with
  | some v => if v.isEmpty then d else v
  | none => d

/-- JS `n || d` for an optional number: `null`/`undefined` and `0` both
fall back to the default. -/
def jsOrNat (n : Option Nat) (d : Nat) : Nat :=
  match n with
  | some v => if v = 0 then d else v
  | none => d

/-- A JS `Error` object, reduced to the `message` the code inspects. -/
structure JSError where
  message : JSString
deriving DecidableEq

/-! ## `src/app/api/data.ts` — document reshaping and the response envelope -/

/-- A MongoDB `ObjectId`, abstracted to the string its `toString()`
returns. -/
structure ObjectId where
  repr : JSString
deriving DecidableEq

/-- A MongoDB document (`MongoDocument` in `data.ts`): an optional `_id`
plus the remaining fields.  The source's `const { _id, ...rest } = doc`
destructuring is modeled by keeping `_id` and `rest` as separate
components; field values are abstracted to strings. -/
structure MongoDocument where
  _id : Option ObjectId
  rest : List (JSString × JSString)
deriving DecidableEq

/-- The client-safe shape produced by `toFrontend`: `_id` is a plain
string. -/
structure FrontendDocument where
  _id : JSString
  rest : List (JSString × JSString)
deriving DecidableEq

/-- `toFrontend` (`data.ts` lines 28–35): spread the non-`_id` fields and
replace `_id` by `_id?.toString() || ''`. -/
def toFrontend (doc : MongoDocument) : FrontendDocument :=
  { _id :=
      match doc._id with
      | some o => o.repr
      | none => []
    rest := doc.rest }

/-- `toMongo` (`data.ts` lines 41–45): drop `_id`, keep every other
field. -/
def toMongo (data : FrontendDocument) : List (JSString × JSString) :=
  data.rest

/-- `toFrontendList` (`data.ts` lines 50–53): `null` maps to `[]`, a list
maps elementwise through `toFrontend`. -/
def toFrontendList (docs : Option (List MongoDocument)) : List FrontendDocument :=
  match docs with
  | none => []
  | some l => l.map toFrontend

/-- `ApiError` (`data.ts` lines 58–68): a message plus a business `code`
and an HTTP `statusCode`. -/
structure ApiError where
  message : JSString
  code : Nat
  statusCode : Nat
deriving DecidableEq

namespace ApiErrors

/-- `ApiErrors.BAD_REQUEST`. -/
def BAD_REQUEST (message : JSString := "请求参数错误".toList) : ApiError :=
  ⟨message, 400, 400⟩

/-- `ApiErrors.VALIDATION_ERROR`. -/
def VALIDATION_ERROR (message : JSString := "数据验证失败".toList) : ApiError :=
  ⟨message, 400, 400⟩

/-- `ApiErrors.MISSING_PARAMS`. -/
def MISSING_PARAMS (message : JSString := "缺少必要参数".toList) : ApiError :=
  ⟨message, 400, 400⟩

/-- `ApiErrors.UNAUTHORIZED`. -/
def UNAUTHORIZED (message : JSString := "未授权访问".toList) : ApiError :=
  ⟨message, 401, 401⟩

/-- `ApiErrors.TOKEN_EXPIRED`. -/
def TOKEN_EXPIRED (message : JSString := "令牌已过期".toList) : ApiError :=
  ⟨message, 401, 401⟩

/-- `ApiErrors.INVALID_TOKEN`. -/
def INVALID_TOKEN (message : JSString := "无效的令牌".toList) : ApiError :=
  ⟨message, 401, 401⟩

/-- `ApiErrors.FORBIDDEN`. -/
def FORBIDDEN (message : JSString := "禁止访问".toList) : ApiError :=
  ⟨message, 403, 403⟩

/-- `ApiErrors.INSUFFICIENT_PERMISSIONS`. -/
def INSUFFICIENT_PERMISSIONS (message : JSString := "权限不足".toList) : ApiError :=
  ⟨message, 403, 403⟩

/-- `ApiErrors.NOT_FOUND`. -/
def NOT_FOUND (message : JSString := "资源不存在".toList) : ApiError :=
  ⟨message, 404, 404⟩

/-- `ApiErrors.USER_NOT_FOUND`. -/
def USER_NOT_FOUND (message : JSString := "用户不存在".toList) : ApiError :=
  ⟨message, 404, 404⟩

/-- `ApiErrors.ARTICLE_NOT_FOUND`. -/
def ARTICLE_NOT_FOUND (message : JSString := "文章不存在".toList) : ApiError :=
  ⟨message, 404, 404⟩

/-- `ApiErrors.CONFLICT`. -/
def CONFLICT (message : JSString := "资源冲突".toList) : ApiError :=
  ⟨message, 409, 409⟩

/-- `ApiErrors.DUPLICATE_ENTRY`. -/
def DUPLICATE_ENTRY (message : JSString := "数据已存在".toList) : ApiError :=
  ⟨message, 409, 409⟩

/-- `ApiErrors.RATE_LIMIT`. -/
def RATE_LIMIT (message : JSString := "请求过于频繁".toList) : ApiError :=
  ⟨message, 429, 429⟩

/-- `ApiErrors.INTERNAL_ERROR`. -/
def INTERNAL_ERROR (message : JSString := "服务器内部错误".toList) : ApiError :=
  ⟨message, 500, 500⟩

/-- `ApiErrors.DATABASE_ERROR`. -/
def DATABASE_ERROR (message : JSString := "数据库连接错误".toList) : ApiError :=
  ⟨message, 500, 500⟩

/-- `ApiErrors.EXTERNAL_API_ERROR`. -/
def EXTERNAL_API_ERROR (message : JSString := "外部API调用失败".toList) : ApiError :=
  ⟨message, 500, 500⟩

end ApiErrors

/-- The seventeen predefined constructors of the `ApiErrors` object, in
source order. -/
def predefinedApiErrors : List (JSString → ApiError) :=
  [fun m => ApiErrors.BAD_REQUEST m, fun m => ApiErrors.VALIDATION_ERROR m,
   fun m => ApiErrors.MISSING_PARAMS m,
   fun m => ApiErrors.UNAUTHORIZED m, fun m => ApiErrors.TOKEN_EXPIRED m,
   fun m => ApiErrors.INVALID_TOKEN m,
   fun m => ApiErrors.FORBIDDEN m, fun m => ApiErrors.INSUFFICIENT_PERMISSIONS m,
   fun m => ApiErrors.NOT_FOUND m, fun m => ApiErrors.USER_NOT_FOUND m,
   fun m => ApiErrors.ARTICLE_NOT_FOUND m,
   fun m => ApiErrors.CONFLICT m, fun m => ApiErrors.DUPLICATE_ENTRY m,
   fun m => ApiErrors.RATE_LIMIT m,
   fun m => ApiErrors.INTERNAL_ERROR m, fun m => ApiErrors.DATABASE_ERROR m,
   fun m => ApiErrors.EXTERNAL_API_ERROR m]

/-- The `ApiResponse` envelope (`data.ts` lines 7–14).  The `data` payload
is abstracted to a string. -/
structure ApiResponse where
  code : Nat
  success : Bool
  message : JSString
  data : Option JSString
  error : Option JSString
  timestamp : Option Nat
deriving DecidableEq

/-- A `NextResponse.json(body, {status})` value: the JSON body plus the
HTTP status. -/
structure NextResponse where
  body : ApiResponse
  status : Nat
deriving DecidableEq

/-- `successResponse` (`data.ts` lines 113–127): envelope with
`success: true` and the given business `code`, always sent with HTTP
status 200.  `now` stands for `Date.now()`. -/
def successResponse (data : Option JSString)
    (message : JSString := "操作成功".toList) (code : Nat := 200)
    (now : Nat := 0) : NextResponse :=
  { body :=
      { code := code
        success := true
        message := message
        data := data
        error := none
        timestamp := some now }
    status := 200 }

/-- The `string | Error | ApiError` argument of `errorResponse`. -/
inductive ErrorArg where
  | str (s : JSString)
  | err (e : JSError)
  | api (e : ApiError)
deriving DecidableEq

/-- `errorResponse` (`data.ts` lines 136–168): an `ApiError` supplies its
own `code`/`statusCode`; otherwise the business code is
`code || statusCode` and the message is the error text.  The envelope
always carries `success: false`, message `操作失败`, and the error text in
`error`. -/
def errorResponse (error : ErrorArg) (statusCode : Nat := 500)
    (code : Option Nat := none) (now : Nat := 0) : NextResponse :=
  let parts : JSString × Nat × Nat :=
    match error with
    | .api e => (e.message, e.code, e.statusCode)
    | .err e => (e.message, jsOrNat code statusCode, statusCode)
    | .str s => (s, jsOrNat code statusCode, statusCode)
  { body :=
      { code := parts.2.1
        success := false
        message := "操作失败".toList
        data := none
        error := some parts.1
        timestamp := some now }
    status := parts.2.2 }

/-- A value thrown inside a handler wrapped by `withErrorHandler`: an
`ApiError`, a plain `Error` (reduced to its message), or any non-`Error`
throwable. -/
inductive Thrown where
  | api (e : ApiError)
  | err (message : JSString)
  | nonError
deriving DecidableEq

/-- The `catch` branch of `withErrorHandler` (`data.ts` lines 215–242):
an `ApiError` is passed to `errorResponse` as is; a plain `Error` is
bucketed by message substrings, checked in order; anything else becomes a
500 with text `未知错误`. -/
def withErrorHandlerCatch (t : Thrown) (now : Nat := 0) : NextResponse :=
  match t with
  | .api e => errorResponse (.api e) 500 none now
  | .err m =>
    if jsIncludes m "not found".toList || jsIncludes m "不存在".toList then
      errorResponse (.err ⟨m⟩) 404 none now
    else if jsIncludes m "unauthorized".toList || jsIncludes m "未授权".toList then
      errorResponse (.err ⟨m⟩) 401 none now
    else if jsIncludes m "forbidden".toList || jsIncludes m "禁止".toList then
      errorResponse (.err ⟨m⟩) 403 none now
    else if jsIncludes m "validation".toList || jsIncludes m "验证".toList then
      errorResponse (.err ⟨m⟩) 400 none now
    else
      errorResponse (.err ⟨m⟩) 500 none now
  | .nonError => errorResponse (.str "未知错误".toList) 500 none now

/-! ## `src/app/api/upload/route.ts` — the upload pipeline -/

/-- The retry configuration record of `route.ts`. -/
structure RetryConfigValues where
  maxRetries : Nat
  initialDelay : Nat
  maxDelay : Nat

/-- `RETRY_CONFIG` (`route.ts` lines 66–70): 3 attempts, 1000 ms initial
delay, 5000 ms cap. -/
def RETRY_CONFIG : RetryConfigValues :=
  { maxRetries := 3, initialDelay := 1000, maxDelay := 5000 }

/-- `uploadToAliyun` (`route.ts` lines 74–89).  `put attempt` is the
outcome of the provider's `client.put` on that attempt (the SDK call is
the only effect; errors are the thrown values).  The function returns the
final outcome — the public URL on success, the rethrown error otherwise —
together with the list of delays (in ms) slept between attempts. -/
def uploadToAliyun (put : Nat → Except JSError Unit)
    (bucket region filename : JSString) (attempt : Nat) :
    Except JSError JSString × List Nat :=
  match put attempt with
  | .ok _ =>
    (.ok ("https://".toList ++ bucket ++ ".".toList ++ region
        ++ ".aliyuncs.com/".toList ++ filename), [])
  | .error err =>
    if RETRY_CONFIG.maxRetries ≤ attempt then
      (.error err, [])
    else
      let rest := uploadToAliyun put bucket region filename (attempt + 1)
      (rest.1,
        Nat.min (RETRY_CONFIG.initialDelay * 2 ^ (attempt - 1))
          RETRY_CONFIG.maxDelay :: rest.2)
termination_by RETRY_CONFIG.maxRetries - attempt
decreasing_by simp only [RETRY_CONFIG] at *; omega

/-- What the Qiniu form uploader reports to its callback on one attempt:
an optional `respErr` and the HTTP status of `respInfo`. -/
structure QiniuCallback where
  respErr : Option JSError
  statusCode : Nat
deriving DecidableEq

/-- `config.domain?.replace(/\/$/, '')`: strip one trailing slash. -/
def stripTrailingSlash (s : JSString) : JSString :=
  if s.getLast? = some '/' then s.dropLast else s

/-- `uploadToQiniu` (`route.ts` lines 91–124).  `cb attempt` is what the
SDK passes to the callback on that attempt.  A callback error retries (up
to `maxRetries`, with the same backoff as aliyun); with no callback
error, status 200 resolves the public URL and any other status rejects a
fresh `Error` naming the status. -/
def uploadToQiniu (cb : Nat → QiniuCallback) (domain filename : JSString)
    (attempt : Nat) : Except JSError JSString × List Nat :=
  match (cb attempt).respErr with
  | some respErr =>
    if attempt < RETRY_CONFIG.maxRetries then
      let rest := uploadToQiniu cb domain filename (attempt + 1)
      (rest.1,
        Nat.min (RETRY_CONFIG.initialDelay * 2 ^ (attempt - 1))
          RETRY_CONFIG.maxDelay :: rest.2)
    else
      (.error respErr, [])
  | none =>
    if (cb attempt).statusCode = 200 then
      (.ok (stripTrailingSlash domain ++ "/".toList ++ filename), [])
    else
      (.error ⟨"Qiniu upload failed with status ".toList
          ++ Nat.toDigits 10 (cb attempt).statusCode⟩, [])
termination_by RETRY_CONFIG.maxRetries - attempt
decreasing_by simp only [RETRY_CONFIG] at *; omega

/-- The `file` field of the multipart form: its MIME `type` and `name`. -/
structure UploadedFile where
  type : JSString
  name : JSString
deriving DecidableEq

/-- The multipart form of the upload request: the optional `file` and the
optional `directory` field (`null` when absent). -/
structure UploadForm where
  file : Option UploadedFile
  directory : Option JSString
deriving DecidableEq

/-- The environment-driven configuration the upload route reads:
`STORAGE_PROVIDER` (already defaulted to `'aliyun'` when unset), the OSS
bucket/region, and flags for whether each provider's required variables
are all present.  The exact text listing missing OSS variables is
abstracted by `ossMissingMessage`. -/
structure UploadEnv where
  storageProvider : JSString
  ossBucket : JSString
  ossRegion : JSString
  ossConfigured : Bool
  ossMissingMessage : JSString
  qiniuDomain : JSString
  qiniuConfigured : Bool

/-- The JSON body of the upload route's response: `{url}` or `{error}`. -/
inductive UploadBody where
  | url (u : JSString)
  | error (msg : JSString)
deriving DecidableEq

/-- An upload-route response: body plus HTTP status. -/
structure UploadResponse where
  body : UploadBody
  status : Nat
deriving DecidableEq

/-- `allowedTypes` (`route.ts` line 137). -/
def allowedTypes : List JSString :=
  ["text/markdown".toList, "text/plain".toList, "image/".toList, "video/".toList]

/-- The `isAllowedType` check (`route.ts` lines 138–140): some allowlist
entry is a prefix of the MIME type, or the file name ends in `.md` (the
`.md` disjunct sits inside the `some`, so it admits the file whatever its
type). -/
def isAllowedType (file : UploadedFile) : Bool :=
  allowedTypes.any fun t =>
    jsStartsWith file.type t || jsEndsWith file.name ".md".toList

/-- `POST` of the upload route (`route.ts` lines 126–176).  `uuid` stands
for the generated `uuidv4()`; `put`/`cb` are the per-attempt provider
outcomes.  Thrown provider errors are caught and rendered as
`{error: message || "Upload failed"}` with status 500. -/
def POST (env : UploadEnv) (form : UploadForm) (uuid : JSString)
    (put : Nat → Except JSError Unit) (cb : Nat → QiniuCallback) :
    UploadResponse :=
  match form.file with
  | none => ⟨.error "No file provided".toList, 400⟩
  | some file =>
    if !isAllowedType file then
      ⟨.error "Only markdown, image and video files are allowed".toList, 400⟩
    else
      let extension := jsToLower ((splitOnChar '.' file.name).getLastD [])
      if extension.isEmpty then
        ⟨.error "Invalid file extension".toList, 400⟩
      else
        let basePath :=
          if jsStartsWith file.type "image/".toList then "images".toList
          else if jsStartsWith file.type "video/".toList then "videos".toList
          else "articles".toList
        let directory := jsOrStr form.directory "articles".toList
        let filename := basePath ++ "/".toList ++ directory ++ "/".toList
          ++ uuid ++ ".".toList ++ extension
        if env.storageProvider = "qiniu".toList then
          if !env.qiniuConfigured then
            ⟨.error "Qiniu OSS not configured. Missing AccessKey, SecretKey or Bucket.".toList,
              500⟩
          else
            match (uploadToQiniu cb env.qiniuDomain filename 1).1 with
            | .ok url => ⟨.url url, 200⟩
            | .error e => ⟨.error (jsOrStr (some e.message) "Upload failed".toList), 500⟩
        else
          if !env.ossConfigured then
            ⟨.error env.ossMissingMessage, 500⟩
          else
            match (uploadToAliyun put env.ossBucket env.ossRegion filename 1).1 with
            | .ok url => ⟨.url url, 200⟩
            | .error e => ⟨.error (jsOrStr (some e.message) "Upload failed".toList), 500⟩

/-! ## `next.config.js` bundle — the axios `Request` wrapper -/

/-- `processUrl` (client wrapper, lines 234–241): URLs already under
`/api/` or absolute `http(s)://` URLs pass through; everything else gets
the `/api/` root, with a single leading `/` stripped first. -/
def processUrl (url : JSString) : JSString :=
  if jsStartsWith url "/api/".toList || jsStartsWith url "http://".toList
      || jsStartsWith url "https://".toList then
    url
  else
    "/api/".toList ++ (if jsStartsWith url "/".toList then url.drop 1 else url)

/-- The slice of an axios request config that `generateRequestKey` reads.
`paramsJson` and `dataJson` stand for `JSON.stringify(params)` and
`JSON.stringify(data)`; two configs agree on `params` (resp. `data`)
exactly when these serializations agree. -/
structure AxiosRequestConfig where
  url : JSString
  method : JSString
  paramsJson : JSString
  dataJson : JSString
deriving DecidableEq

/-- `Request.generateRequestKey` (lines 384–387):
`[url, method, JSON.stringify(params), JSON.stringify(data)].join('&')`. -/
def generateRequestKey (config : AxiosRequestConfig) : JSString :=
  List.intercalate "&".toList
    [config.url, config.method, config.paramsJson, config.dataJson]

/-- The `pendingRequests` map, keyed by request key; the value abstracts
the `CancelTokenSource`. -/
abbrev PendingMap := List (JSString × Nat)

/-- JS `Map.prototype.set`: replace the entry with the given key, or
append one. -/
def mapSet (m : PendingMap) (k : JSString) (v : Nat) : PendingMap :=
  match m with
  | [] => [(k, v)]
  | (k', v') :: rest => if k' = k then (k, v) :: rest else (k', v') :: mapSet rest k v

/-- `Request.addPendingRequest` (lines 393–400): when the config carries
no cancel token yet, create a source and store it under the request's
key. -/
def addPendingRequest (m : PendingMap) (config : AxiosRequestConfig)
    (hasCancelToken : Bool) (source : Nat) : PendingMap :=
  if hasCancelToken then m else mapSet m (generateRequestKey config) source

/-- The retry-relevant slice of the wrapper's `RequestConfig`:
the optional `retry` count and optional `retryDelay` (ms). -/
structure RequestConfig where
  retry : Option Nat
  retryDelay : Option Nat
deriving DecidableEq

/-- What the response interceptor's rejection handler decides for one
failed attempt. -/
inductive FailureAction where
  | rejectNow
  | retryAfter (delayMs : Nat) (next : RequestConfig)
deriving DecidableEq

/-- The rejection handler installed by `initInterceptor`
(`next.config.js` bundle, lines 300–324): a cancellation is rejected at
once; otherwise, when `config.retry && config.retry > 0`, the count is
decremented and the request is reissued after `config.retryDelay || 1000`
milliseconds; otherwise the failure is rejected. -/
def interceptorOnRejected (config : RequestConfig) (isCancel : Bool) :
    FailureAction :=
  if isCancel then .rejectNow
  else
    match config.retry with
    | some r =>
      if 0 < r then
        .retryAfter (jsOrNat config.retryDelay 1000) { config with retry := some (r - 1) }
      else .rejectNow
    | none => .rejectNow

/-- Outcome of one attempt of a client-side request: the promise either
fulfills or rejects (possibly through cancellation). -/
inductive AttemptResult where
  | fulfilled
  | rejected (isCancel : Bool)
deriving DecidableEq

/-- One whole client-side request through the wrapper.  `attempts n` is
the outcome of the n-th network attempt: attempt 0 is the original
request, issued on `this.service` (the `axios.create` instance that
`initInterceptor` was applied to), so its rejection runs the rejection
handler; attempt 1 is the reissue, if the handler decides one.  The
reissue is `resolve(axios(config))` on the *base* axios import
(`next.config.js` bundle line 321), whose interceptors were never
installed — so the reissue's outcome is final: a second failure
surfaces without re-entering the handler, whatever retry count remains.
Returns whether the request eventually fulfilled, together with the list
of delays slept. -/
def runRequest (attempts : Nat → AttemptResult) (config : RequestConfig) :
    Bool × List Nat :=
  match attempts 0 with
  | .fulfilled => (true, [])
  | .rejected isCancel =>
    match interceptorOnRejected config isCancel with
    | .rejectNow => (false, [])
    | .retryAfter d _ =>
      match attempts 1 with
      | .fulfilled => (true, [d])
      | .rejected _ => (false, [d])

/-! ## Claims -/

/-- Claim C9: `toFrontend` changes only `_id` — replacing it by its string
representation, or by the empty string when `_id` is absent — and keeps
every other field; `toMongo` removes `_id` and keeps every other field;
hence `toMongo (toFrontend doc)` is `doc` without its `_id`; and
`toFrontendList` maps `toFrontend` over a list, with `null` mapping to the
empty list. -/
theorem claim_C9 (doc : MongoDocument) (docs : List MongoDocument)
    (fd : FrontendDocument) :
    (toFrontend doc).rest = doc.rest ∧
    (toFrontend doc)._id = (match doc._id with | some o => o.repr | none => []) ∧
    toMongo fd = fd.rest ∧
    toMongo (toFrontend doc) = doc.rest ∧
    toFrontendList (some docs) = docs.map toFrontend ∧
    toFrontendList none = [] :=
  ⟨rfl, rfl, rfl, rfl, rfl, rfl⟩

/-- Claim C7: `processUrl` leaves unchanged every URL starting with
`/api/`, `http://` or `https://`, maps every other URL `u` to `/api/`
prepended to `u` stripped of one leading `/`, is idempotent, and every
output starts with `/api/`, `http://` or `https://`. -/
theorem claim_C7 (url : JSString) :
    ((jsStartsWith url "/api/".toList || jsStartsWith url "http://".toList
        || jsStartsWith url "https://".toList) = true → processUrl url = url) ∧
    ((jsStartsWith url "/api/".toList || jsStartsWith url "http://".toList
        || jsStartsWith url "https://".toList) = false →
      processUrl url = "/api/".toList
        ++ (if jsStartsWith url "/".toList then url.drop 1 else url)) ∧
    processUrl (processUrl url) = processUrl url ∧
    (jsStartsWith (processUrl url) "/api/".toList
      || jsStartsWith (processUrl url) "http://".toList
      || jsStartsWith (processUrl url) "https://".toList) = true := by
  have hpre : ∀ x : JSString, jsStartsWith ("/api/".toList ++ x) "/api/".toList = true :=
    fun x => List.isPrefixOf_iff_prefix.mpr (List.prefix_append _ _)
  by_cases hc : (jsStartsWith url "/api/".toList || jsStartsWith url "http://".toList
      || jsStartsWith url "https://".toList) = true
  · have hu : processUrl url = url := by
      simp only [processUrl, hc, if_true]
    exact ⟨fun _ => hu, fun hf => by rw [hf] at hc; exact Bool.noConfusion hc,
      by rw [hu, hu], by rw [hu]; exact hc⟩
  · have hb : (jsStartsWith url "/api/".toList || jsStartsWith url "http://".toList
        || jsStartsWith url "https://".toList) = false := by
      revert hc; cases jsStartsWith url "/api/".toList || jsStartsWith url "http://".toList
        || jsStartsWith url "https://".toList <;> simp
    have hu : processUrl url = "/api/".toList
        ++ (if jsStartsWith url "/".toList then url.drop 1 else url) := by
      simp only [processUrl, hb, Bool.false_eq_true, if_false]
    have hfix : ∀ x : JSString, processUrl ("/api/".toList ++ x) = "/api/".toList ++ x := by
      intro x
      simp only [processUrl, hpre x, Bool.true_or, if_true]
    refine ⟨fun ht => by rw [hb] at ht; exact Bool.noConfusion ht, fun _ => hu, ?_, ?_⟩
    · rw [hu, hfix]
    · rw [hu, hpre]
      simp

/-- Claim C7 witness: concrete instances of both branches of the
theorem. -/
theorem claim_C7_witness :
    processUrl "/api/users".toList = "/api/users".toList ∧
    processUrl "users".toList = "/api/".toList
      ++ (if jsStartsWith "users".toList "/".toList
          then ("users".toList : JSString).drop 1 else "users".toList) :=
  ⟨(claim_C7 "/api/users".toList).1 (by decide),
   (claim_C7 "users".toList).2.1 (by decide)⟩

/-- Claim C4: every predefined `ApiErrors` constructor produces an error
whose business code equals its HTTP status code, one of
400/401/403/404/409/429/500, and `errorResponse` on that error responds
with HTTP status equal to the error's `statusCode` and envelope `code`
equal to the error's `code`. -/
theorem claim_C4 (f : JSString → ApiError) (hf : f ∈ predefinedApiErrors)
    (m : JSString) (sc : Nat) (c : Option Nat) (now : Nat) :
    (f m).code = (f m).statusCode ∧
    ((f m).code = 400 ∨ (f m).code = 401 ∨ (f m).code = 403 ∨ (f m).code = 404 ∨
      (f m).code = 409 ∨ (f m).code = 429 ∨ (f m).code = 500) ∧
    (errorResponse (.api (f m)) sc c now).status = (f m).statusCode ∧
    (errorResponse (.api (f m)) sc c now).body.code = (f m).code := by
  fin_cases hf <;>
    simp [ApiErrors.BAD_REQUEST, ApiErrors.VALIDATION_ERROR, ApiErrors.MISSING_PARAMS,
      ApiErrors.UNAUTHORIZED, ApiErrors.TOKEN_EXPIRED, ApiErrors.INVALID_TOKEN,
      ApiErrors.FORBIDDEN, ApiErrors.INSUFFICIENT_PERMISSIONS,
      ApiErrors.NOT_FOUND, ApiErrors.USER_NOT_FOUND, ApiErrors.ARTICLE_NOT_FOUND,
      ApiErrors.CONFLICT, ApiErrors.DUPLICATE_ENTRY, ApiErrors.RATE_LIMIT,
      ApiErrors.INTERNAL_ERROR, ApiErrors.DATABASE_ERROR, ApiErrors.EXTERNAL_API_ERROR,
      errorResponse]

/-- Claim C4 witness: the `BAD_REQUEST` constructor at a concrete message
satisfies the round-trip property. -/
theorem claim_C4_witness :
    (ApiErrors.BAD_REQUEST "x".toList).code
        = (ApiErrors.BAD_REQUEST "x".toList).statusCode ∧
    ((ApiErrors.BAD_REQUEST "x".toList).code = 400 ∨
      (ApiErrors.BAD_REQUEST "x".toList).code = 401 ∨
      (ApiErrors.BAD_REQUEST "x".toList).code = 403 ∨
      (ApiErrors.BAD_REQUEST "x".toList).code = 404 ∨
      (ApiErrors.BAD_REQUEST "x".toList).code = 409 ∨
      (ApiErrors.BAD_REQUEST "x".toList).code = 429 ∨
      (ApiErrors.BAD_REQUEST "x".toList).code = 500) ∧
    (errorResponse (.api (ApiErrors.BAD_REQUEST "x".toList)) 500 none 0).status
        = (ApiErrors.BAD_REQUEST "x".toList).statusCode ∧
    (errorResponse (.api (ApiErrors.BAD_REQUEST "x".toList)) 500 none 0).body.code
        = (ApiErrors.BAD_REQUEST "x".toList).code :=
  claim_C4 (fun m => ApiErrors.BAD_REQUEST m) (List.Mem.head _) "x".toList 500 none 0

/-- Claim C5: a handler wrapped by `withErrorHandler` that throws an
`ApiError` responds with that error's own `statusCode`; a thrown plain
`Error` is bucketed by message substrings in order (`not found`/`不存在`
to 404, then `unauthorized`/`未授权` to 401, then `forbidden`/`禁止` to
403, then `validation`/`验证` to 400, else 500); a non-`Error` throwable
yields 500 with error text `未知错误`. -/
theorem claim_C5 (e : ApiError) (m : JSString) (now : Nat) :
    (withErrorHandlerCatch (.api e) now).status = e.statusCode ∧
    (withErrorHandlerCatch (.err m) now).status =
      (if jsIncludes m "not found".toList || jsIncludes m "不存在".toList then 404
       else if jsIncludes m "unauthorized".toList || jsIncludes m "未授权".toList then 401
       else if jsIncludes m "forbidden".toList || jsIncludes m "禁止".toList then 403
       else if jsIncludes m "validation".toList || jsIncludes m "验证".toList then 400
       else 500) ∧
    (withErrorHandlerCatch (.err m) now).body.error = some m ∧
    (withErrorHandlerCatch .nonError now).status = 500 ∧
    (withErrorHandlerCatch .nonError now).body.error = some "未知错误".toList := by
  refine ⟨rfl, ?_, ?_, rfl, rfl⟩ <;>
    · simp only [withErrorHandlerCatch]
      split_ifs <;> rfl

/-- Claim C10 counterexample: the claim's biconditional "the envelope's
success flag is true exactly when the HTTP status is 200" fails on the
code — `errorResponse` invoked with HTTP status 200 produces a response
with status 200 whose success flag is false. -/
theorem claim_C10_counterexample :
    (errorResponse (.str "boom".toList) 200 none 0).status = 200 ∧
    (errorResponse (.str "boom".toList) 200 none 0).body.success = false := by
  decide

/-- Claim C10 as amended: `successResponse` always yields HTTP status 200
with `success = true`, whatever the business code; `errorResponse` always
yields `success = false`, the fixed message `操作失败`, and the original
error text in `error`; so `success = true` implies HTTP status 200, while
the converse fails when `errorResponse` is handed HTTP status 200. -/
theorem claim_C10_amended (data : Option JSString) (m : JSString) (code : Nat)
    (e : ErrorArg) (sc : Nat) (c : Option Nat) (now : Nat) :
    (successResponse data m code now).status = 200 ∧
    (successResponse data m code now).body.success = true ∧
    (successResponse data m code now).body.code = code ∧
    (errorResponse e sc c now).body.success = false ∧
    (errorResponse e sc c now).body.message = "操作失败".toList ∧
    (errorResponse e sc c now).body.error =
      some (match e with
            | .str s => s
            | .err er => er.message
            | .api a => a.message) := by
  refine ⟨rfl, rfl, rfl, ?_, ?_, ?_⟩ <;> cases e <;> rfl

/-- Claim C2: the upload `POST` handler rejects with the 400 type-check
response exactly those provided files outside the allowlist — MIME type
with a prefix among `text/markdown`, `text/plain`, `image/`, `video/`, or
a file name ending in `.md` — and every file inside the allowlist
proceeds past the type check. -/
theorem claim_C2 (env : UploadEnv) (form : UploadForm) (uuid : JSString)
    (put : Nat → Except JSError Unit) (cb : Nat → QiniuCallback)
    (file : UploadedFile) (hf : form.file = some file) :
    POST env form uuid put cb
        = ⟨.error "Only markdown, image and video files are allowed".toList, 400⟩
      ↔ (jsStartsWith file.type "text/markdown".toList
          || jsStartsWith file.type "text/plain".toList
          || jsStartsWith file.type "image/".toList
          || jsStartsWith file.type "video/".toList
          || jsEndsWith file.name ".md".toList) = false := by
  have hiff : isAllowedType file
      = (jsStartsWith file.type "text/markdown".toList
          || jsStartsWith file.type "text/plain".toList
          || jsStartsWith file.type "image/".toList
          || jsStartsWith file.type "video/".toList
          || jsEndsWith file.name ".md".toList) := by
    simp only [isAllowedType, allowedTypes, List.any_cons, List.any_nil]
    cases jsStartsWith file.type "text/markdown".toList <;>
      cases jsStartsWith file.type "text/plain".toList <;>
      cases jsStartsWith file.type "image/".toList <;>
      cases jsStartsWith file.type "video/".toList <;>
      cases jsEndsWith file.name ".md".toList <;> rfl
  rw [← hiff]
  by_cases hA : isAllowedType file
  · simp only [POST, hf, hA, Bool.not_true, Bool.false_eq_true, if_false]
    constructor
    · intro hEq
      revert hEq
      split
      · intro hEq
        exact absurd (congrArg UploadResponse.body hEq) (by decide)
      · split
        · split
          · intro hEq
            have h5 := congrArg UploadResponse.status hEq
            simp at h5
          · split
            · intro hEq
              have h5 := congrArg UploadResponse.status hEq
              simp at h5
            · intro hEq
              have h5 := congrArg UploadResponse.status hEq
              simp at h5
        · split
          · intro hEq
            have h5 := congrArg UploadResponse.status hEq
            simp at h5
          · split
            · intro hEq
              have h5 := congrArg UploadResponse.status hEq
              simp at h5
            · intro hEq
              have h5 := congrArg UploadResponse.status hEq
              simp at h5
    · intro hFalse
      exact Bool.noConfusion hFalse
  · have hA' : isAllowedType file = false := by
      revert hA; cases isAllowedType file <;> simp
    simp [POST, hf, hA']

/-- Claim C2 witness: a zip file is rejected by the type check with the
400 response. -/
theorem claim_C2_witness :
    POST ⟨"aliyun".toList, "b".toList, "r".toList, true, [], [], true⟩
        ⟨some ⟨"application/zip".toList, "a.zip".toList⟩, none⟩ "u".toList
        (fun _ => .ok ()) (fun _ => ⟨none, 200⟩)
      = ⟨.error "Only markdown, image and video files are allowed".toList, 400⟩ :=
  (claim_C2 ⟨"aliyun".toList, "b".toList, "r".toList, true, [], [], true⟩
      ⟨some ⟨"application/zip".toList, "a.zip".toList⟩, none⟩ "u".toList
      (fun _ => .ok ()) (fun _ => ⟨none, 200⟩)
      ⟨"application/zip".toList, "a.zip".toList⟩ rfl).mpr (by decide)

/-- Helper: with the aliyun provider configured and a provided, allowed
file whose first upload attempt succeeds, `POST` rejects exactly when the
lowercased final `.`-segment of the file name is empty, and otherwise
responds with the public URL of the derived storage key. -/
theorem POST_aliyun_putOk (env : UploadEnv) (form : UploadForm) (uuid : JSString)
    (put : Nat → Except JSError Unit) (cb : Nat → QiniuCallback) (file : UploadedFile)
    (hprov : env.storageProvider ≠ "qiniu".toList)
    (hconf : env.ossConfigured = true)
    (hf : form.file = some file)
    (hA : isAllowedType file = true)
    (hput : put 1 = .ok ()) :
    POST env form uuid put cb
      = if (jsToLower ((splitOnChar '.' file.name).getLastD [])).isEmpty then
          ⟨.error "Invalid file extension".toList, 400⟩
        else
          ⟨.url ("https://".toList ++ env.ossBucket ++ ".".toList ++ env.ossRegion
              ++ ".aliyuncs.com/".toList
              ++ ((if jsStartsWith file.type "image/".toList then "images".toList
                   else if jsStartsWith file.type "video/".toList then "videos".toList
                   else "articles".toList)
                  ++ "/".toList ++ jsOrStr form.directory "articles".toList ++ "/".toList
                  ++ uuid ++ ".".toList
                  ++ jsToLower ((splitOnChar '.' file.name).getLastD []))), 200⟩ := by
  simp only [POST, hf, hA, Bool.not_true, Bool.false_eq_true, if_false]
  split
  · rfl
  · rw [hconf]
    simp only [Bool.not_true, Bool.false_eq_true, if_false]
    rw [uploadToAliyun.eq_def, hput]

/-- Claim C8 counterexample: a file whose name has no `.` at all (here
`README`, an allowed `image/png` upload) is *not* rejected with a 400
response as the claim states; the pipeline accepts it and uses the whole
lowercased name as the extension, producing the key
`images/articles/<uuid>.readme`. -/
theorem claim_C8_counterexample :
    POST ⟨"aliyun".toList, "b".toList, "r".toList, true, [], [], true⟩
        ⟨some ⟨"image/png".toList, "README".toList⟩, none⟩ "u".toList
        (fun _ => .ok ()) (fun _ => ⟨none, 200⟩)
      = ⟨.url "https://b.r.aliyuncs.com/images/articles/u.readme".toList, 200⟩ := by
  rw [POST_aliyun_putOk _ _ _ _ _ ⟨"image/png".toList, "README".toList⟩
    (by decide) rfl rfl (by decide) rfl]
  decide

/-- Claim C8 as amended: for an accepted file uploaded through the
configured aliyun provider, the storage key is
`<basePath>/<directory>/<uuid>.<ext>` — `basePath` is `images` for
`image/*`, `videos` for `video/*`, `articles` otherwise; `directory` is
the request's directory field with `articles` substituted when absent or
empty; `ext` is the lowercased final `.`-separated segment of the file
name (the whole lowercased name when there is no dot); and the request is
rejected with a 400 response exactly when that segment is empty (empty
name, or name ending in `.`).  The key is observed through the public URL
of a first-attempt-successful upload. -/
theorem claim_C8_amended (env : UploadEnv) (form : UploadForm) (uuid : JSString)
    (put : Nat → Except JSError Unit) (cb : Nat → QiniuCallback) (file : UploadedFile)
    (hprov : env.storageProvider ≠ "qiniu".toList)
    (hconf : env.ossConfigured = true)
    (hf : form.file = some file)
    (hA : isAllowedType file = true)
    (hput : put 1 = .ok ()) :
    POST env form uuid put cb
      = if (jsToLower ((splitOnChar '.' file.name).getLastD [])).isEmpty then
          ⟨.error "Invalid file extension".toList, 400⟩
        else
          ⟨.url ("https://".toList ++ env.ossBucket ++ ".".toList ++ env.ossRegion
              ++ ".aliyuncs.com/".toList
              ++ ((if jsStartsWith file.type "image/".toList then "images".toList
                   else if jsStartsWith file.type "video/".toList then "videos".toList
                   else "articles".toList)
                  ++ "/".toList ++ jsOrStr form.directory "articles".toList ++ "/".toList
                  ++ uuid ++ ".".toList
                  ++ jsToLower ((splitOnChar '.' file.name).getLastD []))), 200⟩ :=
  POST_aliyun_putOk env form uuid put cb file hprov hconf hf hA hput

/-- Claim C8 witness: a `text/plain` file named `notes.TXT` uploaded to
directory `docs` is stored under `articles/docs/<uuid>.txt`. -/
theorem claim_C8_witness :
    POST ⟨"aliyun".toList, "B".toList, "R".toList, true, [], [], true⟩
        ⟨some ⟨"text/plain".toList, "notes.TXT".toList⟩, some "docs".toList⟩ "u1".toList
        (fun _ => .ok ()) (fun _ => ⟨none, 200⟩)
      = ⟨.url "https://B.R.aliyuncs.com/articles/docs/u1.txt".toList, 200⟩ := by
  rw [claim_C8_amended _ _ _ _ _ ⟨"text/plain".toList, "notes.TXT".toList⟩
    (by decide) rfl rfl (by decide) rfl]
  decide

/-- Claim C1 counterexample: for the qiniu provider the claim fails — with
per-attempt outcomes that never succeed (attempt 1 reports no callback
error but HTTP status 500, later attempts status 503), the upload does
not retry at all: it surfaces the status-500 error of attempt 1
immediately, with no delays, rather than the error of the last of three
failed attempts. -/
theorem claim_C1_counterexample :
    uploadToQiniu (fun n => if n = 1 then ⟨none, 500⟩ else ⟨none, 503⟩)
        "d".toList "f".toList 1
      = (.error ⟨"Qiniu upload failed with status ".toList ++ Nat.toDigits 10 500⟩, []) ∧
    ("Qiniu upload failed with status ".toList ++ Nat.toDigits 10 500 : JSString)
      ≠ "Qiniu upload failed with status ".toList ++ Nat.toDigits 10 503 := by
  constructor
  · rw [uploadToQiniu.eq_def]
    simp
  · decide

/-- Claim C1 as amended: for the aliyun provider the claim holds as
stated — an attempt succeeding at attempt k ≤ maxRetries = 3 yields the
public URL, three failed attempts rethrow the error of the third, and the
delay slept before attempt n+1 is min(1000·2^(n-1), 5000) ms.  For the
qiniu provider the same holds when the per-attempt failures are callback
errors (`respErr`); but a callback reporting no error with an HTTP status
other than 200 is rejected immediately, without retry or delay. -/
theorem claim_C1_amended (put : Nat → Except JSError Unit) (cb : Nat → QiniuCallback)
    (bucket region domain filename : JSString) (e1 e2 e3 : JSError) (s : Nat) :
    (put 1 = .ok () →
      uploadToAliyun put bucket region filename 1
        = (.ok ("https://".toList ++ bucket ++ ".".toList ++ region
            ++ ".aliyuncs.com/".toList ++ filename), [])) ∧
    (put 1 = .error e1 → put 2 = .ok () →
      uploadToAliyun put bucket region filename 1
        = (.ok ("https://".toList ++ bucket ++ ".".toList ++ region
            ++ ".aliyuncs.com/".toList ++ filename),
           [Nat.min (1000 * 2 ^ (1 - 1)) 5000])) ∧
    (put 1 = .error e1 → put 2 = .error e2 → put 3 = .ok () →
      uploadToAliyun put bucket region filename 1
        = (.ok ("https://".toList ++ bucket ++ ".".toList ++ region
            ++ ".aliyuncs.com/".toList ++ filename),
           [Nat.min (1000 * 2 ^ (1 - 1)) 5000, Nat.min (1000 * 2 ^ (2 - 1)) 5000])) ∧
    (put 1 = .error e1 → put 2 = .error e2 → put 3 = .error e3 →
      uploadToAliyun put bucket region filename 1
        = (.error e3,
           [Nat.min (1000 * 2 ^ (1 - 1)) 5000, Nat.min (1000 * 2 ^ (2 - 1)) 5000])) ∧
    ((cb 1).respErr = none → (cb 1).statusCode = 200 →
      uploadToQiniu cb domain filename 1
        = (.ok (stripTrailingSlash domain ++ "/".toList ++ filename), [])) ∧
    ((cb 1).respErr = some e1 → (cb 2).respErr = none → (cb 2).statusCode = 200 →
      uploadToQiniu cb domain filename 1
        = (.ok (stripTrailingSlash domain ++ "/".toList ++ filename),
           [Nat.min (1000 * 2 ^ (1 - 1)) 5000])) ∧
    ((cb 1).respErr = some e1 → (cb 2).respErr = some e2 →
      (cb 3).respErr = none → (cb 3).statusCode = 200 →
      uploadToQiniu cb domain filename 1
        = (.ok (stripTrailingSlash domain ++ "/".toList ++ filename),
           [Nat.min (1000 * 2 ^ (1 - 1)) 5000, Nat.min (1000 * 2 ^ (2 - 1)) 5000])) ∧
    ((cb 1).respErr = some e1 → (cb 2).respErr = some e2 → (cb 3).respErr = some e3 →
      uploadToQiniu cb domain filename 1
        = (.error e3,
           [Nat.min (1000 * 2 ^ (1 - 1)) 5000, Nat.min (1000 * 2 ^ (2 - 1)) 5000])) ∧
    ((cb 1).respErr = none → (cb 1).statusCode = s → s ≠ 200 →
      uploadToQiniu cb domain filename 1
        = (.error ⟨"Qiniu upload failed with status ".toList ++ Nat.toDigits 10 s⟩,
           [])) := by
  refine ⟨?_, ?_, ?_, ?_, ?_, ?_, ?_, ?_, ?_⟩
  · intro h1
    rw [uploadToAliyun.eq_def, h1]
  · intro h1 h2
    rw [uploadToAliyun.eq_def, h1]
    simp only [RETRY_CONFIG]
    rw [uploadToAliyun.eq_def, h2]
    simp
  · intro h1 h2 h3
    rw [uploadToAliyun.eq_def, h1]
    simp only [RETRY_CONFIG]
    rw [uploadToAliyun.eq_def, h2]
    simp only [RETRY_CONFIG]
    rw [uploadToAliyun.eq_def, h3]
    simp
  · intro h1 h2 h3
    rw [uploadToAliyun.eq_def, h1]
    simp only [RETRY_CONFIG]
    rw [uploadToAliyun.eq_def, h2]
    simp only [RETRY_CONFIG]
    rw [uploadToAliyun.eq_def, h3]
    simp [RETRY_CONFIG]
  · intro h1 h2
    rw [uploadToQiniu.eq_def, h1, h2]
    simp
  · intro h1 h2 h3
    rw [uploadToQiniu.eq_def, h1]
    simp only [RETRY_CONFIG]
    rw [uploadToQiniu.eq_def, h2, h3]
    simp
  · intro h1 h2 h3 h4
    rw [uploadToQiniu.eq_def, h1]
    simp only [RETRY_CONFIG]
    rw [uploadToQiniu.eq_def, h2]
    simp only [RETRY_CONFIG]
    rw [uploadToQiniu.eq_def, h3, h4]
    simp
  · intro h1 h2 h3
    rw [uploadToQiniu.eq_def, h1]
    simp only [RETRY_CONFIG]
    rw [uploadToQiniu.eq_def, h2]
    simp only [RETRY_CONFIG]
    rw [uploadToQiniu.eq_def, h3]
    simp [RETRY_CONFIG]
  · intro h1 h2 h3
    rw [uploadToQiniu.eq_def, h1, h2, if_neg h3]

/-- Claim C1 witness: three consecutive aliyun failures surface the last
error, after backoff delays of 1000 ms and 2000 ms. -/
theorem claim_C1_witness :
    uploadToAliyun (fun _ => .error ⟨"E".toList⟩) "b".toList "r".toList "f".toList 1
      = (.error ⟨"E".toList⟩,
         [Nat.min (1000 * 2 ^ (1 - 1)) 5000, Nat.min (1000 * 2 ^ (2 - 1)) 5000]) :=
  (claim_C1_amended (fun _ => .error ⟨"E".toList⟩) (fun _ => ⟨none, 200⟩)
      "b".toList "r".toList "d".toList "f".toList
      ⟨"E".toList⟩ ⟨"E".toList⟩ ⟨"E".toList⟩ 0).2.2.2.1 rfl rfl rfl

/-- Claim C3 counterexample: two in-flight requests that disagree on URL
and method can still share one cancellation-tracking entry, because the
key joins the four components with `&` and the fields may themselves
contain `&`: `url: "a&b", method: "c"` and `url: "a", method: "b&c"`
produce the same key, so registering both leaves a single map entry. -/
theorem claim_C3_counterexample :
    generateRequestKey ⟨"a&b".toList, "c".toList, "p".toList, "d".toList⟩
      = generateRequestKey ⟨"a".toList, "b&c".toList, "p".toList, "d".toList⟩ ∧
    ("a&b".toList : JSString) ≠ "a".toList ∧
    ("c".toList : JSString) ≠ "b&c".toList ∧
    (addPendingRequest
        (addPendingRequest [] ⟨"a&b".toList, "c".toList, "p".toList, "d".toList⟩ false 1)
        ⟨"a".toList, "b&c".toList, "p".toList, "d".toList⟩ false 2).length = 1 := by
  decide

/-- Claim C3 as amended: two in-flight requests share a single
cancellation-tracking entry if and only if their generated keys — the
`&`-join of URL, method, stringified params and stringified body —
coincide; agreement on all four components implies a shared entry, but
the converse can fail when a component contains `&`. -/
theorem claim_C3_amended (c1 c2 : AxiosRequestConfig) (s1 s2 : Nat) :
    ((addPendingRequest (addPendingRequest [] c1 false s1) c2 false s2).length = 1
      ↔ generateRequestKey c1 = generateRequestKey c2) ∧
    (c1.url = c2.url → c1.method = c2.method → c1.paramsJson = c2.paramsJson →
      c1.dataJson = c2.dataJson →
      generateRequestKey c1 = generateRequestKey c2) := by
  constructor
  · by_cases h : generateRequestKey c1 = generateRequestKey c2 <;>
      simp [addPendingRequest, mapSet, h]
  · intro hu hm hp hd
    simp [generateRequestKey, hu, hm, hp, hd]

/-- Claim C3 witness: two configs agreeing on all four components share a
key. -/
theorem claim_C3_witness :
    generateRequestKey ⟨"u".toList, "get".toList, "p".toList, "d".toList⟩
      = generateRequestKey ⟨"u".toList, "get".toList, "p".toList, "d".toList⟩ :=
  (claim_C3_amended ⟨"u".toList, "get".toList, "p".toList, "d".toList⟩
      ⟨"u".toList, "get".toList, "p".toList, "d".toList⟩ 1 2).2 rfl rfl rfl rfl

/-- Claim C6 counterexample: the claim fails at two concrete inputs.
A config that explicitly sets `retryDelay` to 0 is retried after
1000 ms, not after the configured 0 ms, because the code computes
`config.retryDelay || 1000`.  And a config with retry count 3 whose
attempts all fail is reissued only once (a single 1000 ms sleep) rather
than retried up to 3 times, because the reissue runs on the base axios
instance without the interceptors and its failure surfaces at once. -/
theorem claim_C6_counterexample :
    (interceptorOnRejected ⟨some 1, some 0⟩ false
        = .retryAfter 1000 ⟨some 0, some 0⟩ ∧ (1000 : Nat) ≠ 0) ∧
    (runRequest (fun _ => .rejected false) ⟨some 3, none⟩ = (false, [1000]) ∧
      (1 : Nat) ≠ 3) := by
  decide

/-- Claim C6 as amended: a cancellation failure is rejected immediately
regardless of the retry count; a config with no positive retry count is
never retried and its failure is rejected; a failed request with retry
count r > 0 has the handler schedule one reissue with count r-1 after
`retryDelay || 1000` ms (the configured delay when positive, 1000 ms when
absent or zero) — but that reissue bypasses the interceptors, so its
outcome is final: it fulfills or its failure surfaces, with no further
retry whatever the remaining count, and a whole request sleeps at most
once. -/
theorem claim_C6_amended (config : RequestConfig) (r : Nat)
    (attempts : Nat → AttemptResult) :
    interceptorOnRejected config true = .rejectNow ∧
    (config.retry = none → interceptorOnRejected config false = .rejectNow) ∧
    (config.retry = some 0 → interceptorOnRejected config false = .rejectNow) ∧
    (config.retry = some r → 0 < r →
      interceptorOnRejected config false
        = .retryAfter (jsOrNat config.retryDelay 1000) ⟨some (r - 1), config.retryDelay⟩) ∧
    (∀ c, attempts 0 = .rejected c → c = true →
      runRequest attempts config = (false, [])) ∧
    (attempts 0 = .rejected false → (config.retry = none ∨ config.retry = some 0) →
      runRequest attempts config = (false, [])) ∧
    (attempts 0 = .rejected false → config.retry = some r → 0 < r →
      attempts 1 = .fulfilled →
      runRequest attempts config = (true, [jsOrNat config.retryDelay 1000])) ∧
    (∀ c2, attempts 0 = .rejected false → config.retry = some r → 0 < r →
      attempts 1 = .rejected c2 →
      runRequest attempts config = (false, [jsOrNat config.retryDelay 1000])) ∧
    (runRequest attempts config).2.length ≤ 1 := by
  refine ⟨?_, ?_, ?_, ?_, ?_, ?_, ?_, ?_, ?_⟩
  · simp [interceptorOnRejected]
  · intro h
    simp [interceptorOnRejected, h]
  · intro h
    simp [interceptorOnRejected, h]
  · intro h h0
    simp [interceptorOnRejected, h, h0]
  · intro c h hc
    subst hc
    simp [runRequest, h, interceptorOnRejected]
  · intro h hr
    rcases hr with hr | hr <;> simp [runRequest, h, interceptorOnRejected, hr]
  · intro h hr h0 h1
    simp [runRequest, h, interceptorOnRejected, hr, h0, h1]
  · intro c2 h hr h0 h1
    simp [runRequest, h, interceptorOnRejected, hr, h0, h1]
  · rcases h0 : attempts 0 with _ | c
    · simp [runRequest, h0]
    · rcases hI : interceptorOnRejected config c with _ | ⟨d, next⟩
      · simp [runRequest, h0, hI]
      · rcases h1 : attempts 1 with _ | c2 <;> simp [runRequest, h0, hI, h1]

/-- Claim C6 witness: with retry count 2 and retryDelay 500, a failure is
scheduled for one reissue after 500 ms with count 1; when that reissue
also fails, the whole request rejects after the single 500 ms sleep,
despite the remaining retry count. -/
theorem claim_C6_witness :
    (interceptorOnRejected ⟨some 2, some 500⟩ false
      = .retryAfter 500 ⟨some 1, some 500⟩) ∧
    runRequest (fun _ => .rejected false) ⟨some 2, some 500⟩ = (false, [500]) :=
  ⟨(claim_C6_amended ⟨some 2, some 500⟩ 2 (fun _ => .rejected false)).2.2.2.1
      rfl (by decide),
   (claim_C6_amended ⟨some 2, some 500⟩ 2 (fun _ => .rejected false)).2.2.2.2.2.2.2.1
      false rfl rfl (by decide) rfl⟩
